import Mathlib

/-!
Shallow embedding of kitty-js (src/index.ts), a thin client over a cat-image
and breed-data REST service.  JavaScript runtime values are modelled by the
inductive type `JsValue`, the axios transport by a function from requests to
transport results, and each exported function of index.ts by a Lean function
of the configuration, the transport and its arguments.  A settled promise is
an `Except JsError JsValue`: `Except.ok` for a promise that resolves and
`Except.error` for one that rejects.
-/

set_option autoImplicit false

/-- A JavaScript/JSON runtime value, as far as this library manipulates
them. Numbers are modelled as integers: every number the library reads or
writes (trait scores, the listing limit) is integral. -/
inductive JsValue where
  | undefined
  | null
  | bool (b : Bool)
  | num (n : Int)
  | str (s : String)
  | arr (elems : List JsValue)
  | obj (fields : List (String × JsValue))

/-- JavaScript truthiness, as tested by `if (res.data[0])` in index.ts:
`undefined`, `null`, `false`, `0` and the empty string are falsy, every
other value (objects and arrays included) is truthy. -/
def JsValue.truthy : JsValue → Bool
  | .undefined => false
  | .null => false
  | .bool b => b
  | .num n => decide (n ≠ 0)
  | .str s => decide (s ≠ "")
  | .arr _ => true
  | .obj _ => true

/-- A transport-level (axios) failure: DNS, timeout, non-2xx status. -/
structure AxiosError where
  message : String

/-- How a promise of the embedding rejects: `thrown m` for
`throw new Error(m)`, `typeError` for a property access on `undefined` or
`null`, `axios e` for a transport failure propagated out of `axios.get`. -/
inductive JsError where
  | thrown (message : String)
  | typeError
  | axios (e : AxiosError)

/-- `v.getField k` is the JavaScript property access `v[k]`: a TypeError on
`undefined` and `null`, the field (or `undefined` when absent) on an object,
and `undefined` on any other value. -/
def JsValue.getField : JsValue → String → Except JsError JsValue
  | .undefined, _ => .error .typeError
  | .null, _ => .error .typeError
  | .obj fields, key => .ok ((fields.lookup key).getD .undefined)
  | _, _ => .ok .undefined

mutual

/-- JavaScript string conversion, as performed by the template literal in
`catBreedImage`. Arrays stringify by joining their elements with commas,
`null` and `undefined` elements joining as the empty string. -/
def jsToString : JsValue → String
  | .undefined => "undefined"
  | .null => "null"
  | .bool b => if b then "true" else "false"
  | .num n => toString n
  | .str s => s
  | .obj _ => "[object Object]"
  | .arr elems => jsJoin elems

/-- `Array.prototype.join` with the default "," separator. -/
def jsJoin : List JsValue → String
  | [] => ""
  | v :: rest =>
    let head :=
      match v with
      | .undefined => ""
      | .null => ""
      | w => jsToString w
    match rest with
    | [] => head
    | _ :: _ => head ++ "," ++ jsJoin rest

end

/-- One HTTP GET request as the library issues it: the full URL (base URL,
path and query string) and the headers attached. -/
structure Request where
  url : String
  headers : List (String × String)

/-- What the transport returns for one request: the parsed JSON body (every
endpoint this library consumes answers with an array), or a failure. -/
inductive TResult where
  | ok (data : List JsValue)
  | fail (e : AxiosError)

/-- The axios collaborator: a map from requests to transport results. -/
abbrev Transport := Request → TResult

/-- Modelled from the spec: `src/constants.ts` (imported by index.ts for
`BASE_URL`, `API_KEY` and `CDN_URL`) is not among the repository's files.
Section 6 of the spec says the configuration consumed from the
environment/build is the base URL of the remote service, an API credential
string, and the image CDN URL used as the left part of breed-image URLs.
The three constants are modelled as one record passed to every operation. -/
structure Config where
  baseUrl : String
  apiKey : String
  cdnUrl : String

/-- The request `randomImage` issues: `GET <BASE_URL>images/search` with no
headers. -/
def randomImageRequest (cfg : Config) : Request :=
  { url := cfg.baseUrl ++ "images/search", headers := [] }

/-- The request `catBreeds` issues: `GET <BASE_URL>breeds?limit=<limit>`
with the X-API-Key header. -/
def catBreedsRequest (cfg : Config) (limit : Int) : Request :=
  { url := cfg.baseUrl ++ "breeds?limit=" ++ toString limit,
    headers := [("X-API-Key", cfg.apiKey)] }

/-- The request `catBreed` issues: `GET <BASE_URL>breeds/search?q=<query>`
with the X-API-Key header. -/
def catBreedRequest (cfg : Config) (query : String) : Request :=
  { url := cfg.baseUrl ++ "breeds/search?q=" ++ query,
    headers := [("X-API-Key", cfg.apiKey)] }

/-- The request `catBreedDescription` issues (index.ts repeats the same URL
template and headers in every accessor). -/
def catBreedDescriptionRequest (cfg : Config) (query : String) : Request :=
  { url := cfg.baseUrl ++ "breeds/search?q=" ++ query,
    headers := [("X-API-Key", cfg.apiKey)] }

/-- The request `catBreedImage` issues. -/
def catBreedImageRequest (cfg : Config) (query : String) : Request :=
  { url := cfg.baseUrl ++ "breeds/search?q=" ++ query,
    headers := [("X-API-Key", cfg.apiKey)] }

/-- The request `catBreedChildFriendliness` issues. -/
def catBreedChildFriendlinessRequest (cfg : Config) (query : String) : Request :=
  { url := cfg.baseUrl ++ "breeds/search?q=" ++ query,
    headers := [("X-API-Key", cfg.apiKey)] }

/-- The request `breedLifeSpan` issues. -/
def breedLifeSpanRequest (cfg : Config) (query : String) : Request :=
  { url := cfg.baseUrl ++ "breeds/search?q=" ++ query,
    headers := [("X-API-Key", cfg.apiKey)] }

/-- The request `breedTemperament` issues. -/
def breedTemperamentRequest (cfg : Config) (query : String) : Request :=
  { url := cfg.baseUrl ++ "breeds/search?q=" ++ query,
    headers := [("X-API-Key", cfg.apiKey)] }

/-- The request `breedIntelligence` issues. -/
def breedIntelligenceRequest (cfg : Config) (query : String) : Request :=
  { url := cfg.baseUrl ++ "breeds/search?q=" ++ query,
    headers := [("X-API-Key", cfg.apiKey)] }

/-- The request `breedAffection` issues. -/
def breedAffectionRequest (cfg : Config) (query : String) : Request :=
  { url := cfg.baseUrl ++ "breeds/search?q=" ++ query,
    headers := [("X-API-Key", cfg.apiKey)] }

/-- `randomImage` (index.ts:56-61): GET images/search, then
`res.data[0].url`; a trailing `.catch` logs the error, and since the catch
callback returns `undefined`, the promise resolves with `undefined`. -/
def randomImage (cfg : Config) (t : Transport) : Except JsError JsValue :=
  let attempt : Except JsError JsValue :=
    match t (randomImageRequest cfg) with
    | .fail e => .error (.axios e)
    | .ok data => (data.headD .undefined).getField "url"
  match attempt with
  | .error _ => .ok .undefined
  | .ok v => .ok v

/-- `catBreeds` (index.ts:71-79): GET breeds?limit=..., return `res.data`
unmodified. No catch: a transport failure rejects the promise. -/
def catBreeds (cfg : Config) (t : Transport) (limit : Int) :
    Except JsError (List JsValue) :=
  match t (catBreedsRequest cfg limit) with
  | .fail e => .error (.axios e)
  | .ok data => .ok data

/-- `catBreeds()` with the declared default `limit = 30`. -/
def catBreedsDefault (cfg : Config) (t : Transport) :
    Except JsError (List JsValue) :=
  catBreeds cfg t 30

/-- `catBreed` (index.ts:89-103): GET breeds/search?q=..., return
`res.data[0]` when it is truthy, otherwise throw
`Error("No such breed found!")`. -/
def catBreed (cfg : Config) (t : Transport) (query : String) :
    Except JsError JsValue :=
  match t (catBreedRequest cfg query) with
  | .fail e => .error (.axios e)
  | .ok data =>
    if (data.headD .undefined).truthy then .ok (data.headD .undefined)
    else .error (.thrown "No such breed found!")

/-- `catBreedDescription` (index.ts:113-127): like `catBreed` but returns
`res.data[0].description`. -/
def catBreedDescription (cfg : Config) (t : Transport) (query : String) :
    Except JsError JsValue :=
  match t (catBreedDescriptionRequest cfg query) with
  | .fail e => .error (.axios e)
  | .ok data =>
    if (data.headD .undefined).truthy then
      (data.headD .undefined).getField "description"
    else .error (.thrown "No such breed found!")

/-- `catBreedImage` (index.ts:137-151): like `catBreed` but returns the
template literal `` `${CDN_URL}${res.data[0].reference_image_id}.jpg` ``. -/
def catBreedImage (cfg : Config) (t : Transport) (query : String) :
    Except JsError JsValue :=
  match t (catBreedImageRequest cfg query) with
  | .fail e => .error (.axios e)
  | .ok data =>
    if (data.headD .undefined).truthy then
      ((data.headD .undefined).getField "reference_image_id").map
        (fun v => .str (cfg.cdnUrl ++ jsToString v ++ ".jpg"))
    else .error (.thrown "No such breed found!")

/-- `catBreedChildFriendliness` (index.ts:161-177): like `catBreed` but
returns `res.data[0].child_friendly`. -/
def catBreedChildFriendliness (cfg : Config) (t : Transport) (query : String) :
    Except JsError JsValue :=
  match t (catBreedChildFriendlinessRequest cfg query) with
  | .fail e => .error (.axios e)
  | .ok data =>
    if (data.headD .undefined).truthy then
      (data.headD .undefined).getField "child_friendly"
    else .error (.thrown "No such breed found!")

/-- `breedLifeSpan` (index.ts:187-201): like `catBreed` but returns
`res.data[0].life_span`. -/
def breedLifeSpan (cfg : Config) (t : Transport) (query : String) :
    Except JsError JsValue :=
  match t (breedLifeSpanRequest cfg query) with
  | .fail e => .error (.axios e)
  | .ok data =>
    if (data.headD .undefined).truthy then
      (data.headD .undefined).getField "life_span"
    else .error (.thrown "No such breed found!")

/-- `breedTemperament` (index.ts:211-225): like `catBreed` but returns
`res.data[0].temperament`. -/
def breedTemperament (cfg : Config) (t : Transport) (query : String) :
    Except JsError JsValue :=
  match t (breedTemperamentRequest cfg query) with
  | .fail e => .error (.axios e)
  | .ok data =>
    if (data.headD .undefined).truthy then
      (data.headD .undefined).getField "temperament"
    else .error (.thrown "No such breed found!")

/-- `breedIntelligence` (index.ts:235-249): like `catBreed` but returns
`res.data[0].intelligence`. -/
def breedIntelligence (cfg : Config) (t : Transport) (query : String) :
    Except JsError JsValue :=
  match t (breedIntelligenceRequest cfg query) with
  | .fail e => .error (.axios e)
  | .ok data =>
    if (data.headD .undefined).truthy then
      (data.headD .undefined).getField "intelligence"
    else .error (.thrown "No such breed found!")

/-- `breedAffection` (index.ts:259-273): like `catBreed` but returns
`res.data[0].affection_level`. -/
def breedAffection (cfg : Config) (t : Transport) (query : String) :
    Except JsError JsValue :=
  match t (breedAffectionRequest cfg query) with
  | .fail e => .error (.axios e)
  | .ok data =>
    if (data.headD .undefined).truthy then
      (data.headD .undefined).getField "affection_level"
    else .error (.thrown "No such breed found!")

/-- From the spec (section 4.1): take the first element of the search
response, or fail with the fixed NotFound message.  This is the
`firstOrFail()` step of the generic accessor the spec describes. -/
def firstOrFail (data : List JsValue) : Except JsError JsValue :=
  if (data.headD .undefined).truthy then .ok (data.headD .undefined)
  else .error (.thrown "No such breed found!")

/-- From the spec (section 4.1): the generic accessor
`search(query) -> firstOrFail() -> project(field)`, issuing the same search
request as `catBreed`.  Each specialized accessor is claimed to equal this
composition at its projection. -/
def searchProject (cfg : Config) (t : Transport) (query : String)
    (project : JsValue → Except JsError JsValue) : Except JsError JsValue :=
  match t (catBreedRequest cfg query) with
  | .fail e => .error (.axios e)
  | .ok data => (firstOrFail data).bind project

/-- A trait score per the spec's data model and glossary: an integer
between 0 and 5 inclusive. -/
def isTraitScore : JsValue → Bool
  | .num n => decide (0 ≤ n ∧ n ≤ 5)
  | _ => false

/-! Concrete data used to instantiate the theorems at closed inputs:
a configuration, a Ragdoll breed record (after the spec's end-to-end
example) and a handful of constant transports. -/

/-- A concrete configuration. -/
def cfg0 : Config :=
  { baseUrl := "https://api.thecatapi.com/v1/"
    apiKey := "live_key"
    cdnUrl := "https://cdn2.thecatapi.com/images/" }

/-- The fields of the spec's example Ragdoll record. -/
def ragdollFields : List (String × JsValue) :=
  [("name", .str "Ragdoll"),
   ("description", .str "Docile and floppy"),
   ("temperament", .str "Gentle"),
   ("life_span", .str "12 - 17"),
   ("child_friendly", .num 4),
   ("intelligence", .num 3),
   ("affection_level", .num 5),
   ("reference_image_id", .str "abc123")]

/-- The spec's example Ragdoll record as a JS object. -/
def ragdoll : JsValue := .obj ragdollFields

/-- A second record, present only to show later elements are ignored. -/
def siberian : JsValue :=
  .obj [("name", .str "Siberian"), ("child_friendly", .num 2)]

/-- A transport whose every response is the empty array. -/
def tEmpty : Transport := fun _ => .ok []

/-- A transport answering every request with the Ragdoll record first. -/
def tRagdoll : Transport := fun _ => .ok [ragdoll, siberian]

/-- A transport failing every request. -/
def tDown : Transport := fun _ => .fail { message := "getaddrinfo ENOTFOUND" }

/-- A transport whose every response starts with a falsy element. -/
def tFalsy : Transport := fun _ => .ok [.num 0, siberian]

/-- Claim C1: if the server's response sequence is empty, each of the eight
breed-lookup operations rejects with an error carrying exactly the message
"No such breed found!", and no value is returned. -/
theorem emptyResponse_notFound (cfg : Config) (t : Transport) (q : String)
    (h : t (catBreedRequest cfg q) = TResult.ok []) :
    catBreed cfg t q = .error (.thrown "No such breed found!") ∧
    catBreedDescription cfg t q = .error (.thrown "No such breed found!") ∧
    catBreedImage cfg t q = .error (.thrown "No such breed found!") ∧
    catBreedChildFriendliness cfg t q = .error (.thrown "No such breed found!") ∧
    breedLifeSpan cfg t q = .error (.thrown "No such breed found!") ∧
    breedTemperament cfg t q = .error (.thrown "No such breed found!") ∧
    breedIntelligence cfg t q = .error (.thrown "No such breed found!") ∧
    breedAffection cfg t q = .error (.thrown "No such breed found!") := by
  have hd : t (catBreedDescriptionRequest cfg q) = TResult.ok [] := h
  have hi : t (catBreedImageRequest cfg q) = TResult.ok [] := h
  have hc : t (catBreedChildFriendlinessRequest cfg q) = TResult.ok [] := h
  have hl : t (breedLifeSpanRequest cfg q) = TResult.ok [] := h
  have ht : t (breedTemperamentRequest cfg q) = TResult.ok [] := h
  have hn : t (breedIntelligenceRequest cfg q) = TResult.ok [] := h
  have ha : t (breedAffectionRequest cfg q) = TResult.ok [] := h
  refine ⟨?_, ?_, ?_, ?_, ?_, ?_, ?_, ?_⟩ <;>
    simp [catBreed, catBreedDescription, catBreedImage,
      catBreedChildFriendliness, breedLifeSpan, breedTemperament,
      breedIntelligence, breedAffection, h, hd, hi, hc, hl, ht, hn, ha,
      JsValue.truthy]

/-- Witness for C1: the empty-response transport at the query "zzz". -/
theorem emptyResponse_notFound_witness :
    catBreed cfg0 tEmpty "zzz" = .error (.thrown "No such breed found!") ∧
    catBreedDescription cfg0 tEmpty "zzz" = .error (.thrown "No such breed found!") ∧
    catBreedImage cfg0 tEmpty "zzz" = .error (.thrown "No such breed found!") ∧
    catBreedChildFriendliness cfg0 tEmpty "zzz" = .error (.thrown "No such breed found!") ∧
    breedLifeSpan cfg0 tEmpty "zzz" = .error (.thrown "No such breed found!") ∧
    breedTemperament cfg0 tEmpty "zzz" = .error (.thrown "No such breed found!") ∧
    breedIntelligence cfg0 tEmpty "zzz" = .error (.thrown "No such breed found!") ∧
    breedAffection cfg0 tEmpty "zzz" = .error (.thrown "No such breed found!") :=
  emptyResponse_notFound cfg0 tEmpty "zzz" rfl

/-- Claim C2: when the response sequence holds at least one record,
`catBreed` returns the first element — never a later one, since the tail
`rest` is arbitrary — and every field accessor returns its projection of
that same first element. -/
theorem lookup_takesFirst (cfg : Config) (t : Transport) (q : String)
    (fields : List (String × JsValue)) (rest : List JsValue)
    (h : t (catBreedRequest cfg q) = TResult.ok (JsValue.obj fields :: rest)) :
    catBreed cfg t q = .ok (.obj fields) ∧
    catBreedDescription cfg t q =
      .ok ((fields.lookup "description").getD .undefined) ∧
    catBreedImage cfg t q =
      .ok (.str (cfg.cdnUrl ++
        jsToString ((fields.lookup "reference_image_id").getD .undefined) ++
        ".jpg")) ∧
    catBreedChildFriendliness cfg t q =
      .ok ((fields.lookup "child_friendly").getD .undefined) ∧
    breedLifeSpan cfg t q = .ok ((fields.lookup "life_span").getD .undefined) ∧
    breedTemperament cfg t q =
      .ok ((fields.lookup "temperament").getD .undefined) ∧
    breedIntelligence cfg t q =
      .ok ((fields.lookup "intelligence").getD .undefined) ∧
    breedAffection cfg t q =
      .ok ((fields.lookup "affection_level").getD .undefined) := by
  have hd : t (catBreedDescriptionRequest cfg q) =
      TResult.ok (JsValue.obj fields :: rest) := h
  have hi : t (catBreedImageRequest cfg q) =
      TResult.ok (JsValue.obj fields :: rest) := h
  have hc : t (catBreedChildFriendlinessRequest cfg q) =
      TResult.ok (JsValue.obj fields :: rest) := h
  have hl : t (breedLifeSpanRequest cfg q) =
      TResult.ok (JsValue.obj fields :: rest) := h
  have ht : t (breedTemperamentRequest cfg q) =
      TResult.ok (JsValue.obj fields :: rest) := h
  have hn : t (breedIntelligenceRequest cfg q) =
      TResult.ok (JsValue.obj fields :: rest) := h
  have ha : t (breedAffectionRequest cfg q) =
      TResult.ok (JsValue.obj fields :: rest) := h
  refine ⟨?_, ?_, ?_, ?_, ?_, ?_, ?_, ?_⟩ <;>
    simp [catBreed, catBreedDescription, catBreedImage,
      catBreedChildFriendliness, breedLifeSpan, breedTemperament,
      breedIntelligence, breedAffection, h, hd, hi, hc, hl, ht, hn, ha,
      JsValue.truthy, JsValue.getField, Except.map]

/-- Witness for C2: a two-record response; every accessor reads the
Ragdoll record in front and ignores the Siberian record behind it. -/
theorem lookup_takesFirst_witness :
    catBreed cfg0 tRagdoll "ragd" = .ok ragdoll ∧
    catBreedDescription cfg0 tRagdoll "ragd" = .ok (.str "Docile and floppy") ∧
    catBreedImage cfg0 tRagdoll "ragd" =
      .ok (.str "https://cdn2.thecatapi.com/images/abc123.jpg") ∧
    catBreedChildFriendliness cfg0 tRagdoll "ragd" = .ok (.num 4) ∧
    breedLifeSpan cfg0 tRagdoll "ragd" = .ok (.str "12 - 17") ∧
    breedTemperament cfg0 tRagdoll "ragd" = .ok (.str "Gentle") ∧
    breedIntelligence cfg0 tRagdoll "ragd" = .ok (.num 3) ∧
    breedAffection cfg0 tRagdoll "ragd" = .ok (.num 5) :=
  lookup_takesFirst cfg0 tRagdoll "ragd" ragdollFields [siberian] rfl

/-- A value passing `isTraitScore` is an integer between 0 and 5. -/
theorem isTraitScore_elim (v : JsValue) (h : isTraitScore v = true) :
    ∃ n : Int, v = .num n ∧ 0 ≤ n ∧ n ≤ 5 := by
  cases v <;> simp [isTraitScore] at h
  case num n => exact ⟨n, rfl, h⟩

/-- Claim C3: when the first record carries trait scores conforming to the
data model, each numeric trait accessor returns that integer, which lies in
[0,5]; and under an empty response each of the three throws instead of
returning a value, so a returned zero never means "not found". -/
theorem traitAccessors_range (cfg : Config) (t : Transport) (q : String)
    (fields : List (String × JsValue)) (rest : List JsValue)
    (h : t (catBreedRequest cfg q) = TResult.ok (JsValue.obj fields :: rest))
    (hcf : isTraitScore ((fields.lookup "child_friendly").getD .undefined) = true)
    (hin : isTraitScore ((fields.lookup "intelligence").getD .undefined) = true)
    (haf : isTraitScore ((fields.lookup "affection_level").getD .undefined) = true) :
    (∃ n : Int, catBreedChildFriendliness cfg t q = .ok (.num n) ∧
      0 ≤ n ∧ n ≤ 5) ∧
    (∃ n : Int, breedIntelligence cfg t q = .ok (.num n) ∧ 0 ≤ n ∧ n ≤ 5) ∧
    (∃ n : Int, breedAffection cfg t q = .ok (.num n) ∧ 0 ≤ n ∧ n ≤ 5) ∧
    (∀ t2 : Transport, t2 (catBreedRequest cfg q) = TResult.ok [] →
      catBreedChildFriendliness cfg t2 q =
        .error (.thrown "No such breed found!") ∧
      breedIntelligence cfg t2 q = .error (.thrown "No such breed found!") ∧
      breedAffection cfg t2 q = .error (.thrown "No such breed found!")) := by
  have hc : t (catBreedChildFriendlinessRequest cfg q) =
      TResult.ok (JsValue.obj fields :: rest) := h
  have hn : t (breedIntelligenceRequest cfg q) =
      TResult.ok (JsValue.obj fields :: rest) := h
  have ha : t (breedAffectionRequest cfg q) =
      TResult.ok (JsValue.obj fields :: rest) := h
  obtain ⟨ncf, ecf, lcf, ucf⟩ := isTraitScore_elim _ hcf
  obtain ⟨nin, ein, lin, uin⟩ := isTraitScore_elim _ hin
  obtain ⟨naf, eaf, laf, uaf⟩ := isTraitScore_elim _ haf
  refine ⟨⟨ncf, ?_, lcf, ucf⟩, ⟨nin, ?_, lin, uin⟩, ⟨naf, ?_, laf, uaf⟩, ?_⟩
  · simp [catBreedChildFriendliness, hc, JsValue.truthy, JsValue.getField, ecf]
  · simp [breedIntelligence, hn, JsValue.truthy, JsValue.getField, ein]
  · simp [breedAffection, ha, JsValue.truthy, JsValue.getField, eaf]
  · intro t2 h2
    have h2c : t2 (catBreedChildFriendlinessRequest cfg q) = TResult.ok [] := h2
    have h2n : t2 (breedIntelligenceRequest cfg q) = TResult.ok [] := h2
    have h2a : t2 (breedAffectionRequest cfg q) = TResult.ok [] := h2
    refine ⟨?_, ?_, ?_⟩ <;>
      simp [catBreedChildFriendliness, breedIntelligence, breedAffection,
        h2c, h2n, h2a, JsValue.truthy]

/-- Witness for C3: the Ragdoll record's three trait scores. -/
theorem traitAccessors_range_witness :
    (∃ n : Int, catBreedChildFriendliness cfg0 tRagdoll "ragd" = .ok (.num n) ∧
      0 ≤ n ∧ n ≤ 5) ∧
    (∃ n : Int, breedIntelligence cfg0 tRagdoll "ragd" = .ok (.num n) ∧
      0 ≤ n ∧ n ≤ 5) ∧
    (∃ n : Int, breedAffection cfg0 tRagdoll "ragd" = .ok (.num n) ∧
      0 ≤ n ∧ n ≤ 5) ∧
    (∀ t2 : Transport, t2 (catBreedRequest cfg0 "ragd") = TResult.ok [] →
      catBreedChildFriendliness cfg0 t2 "ragd" =
        .error (.thrown "No such breed found!") ∧
      breedIntelligence cfg0 t2 "ragd" =
        .error (.thrown "No such breed found!") ∧
      breedAffection cfg0 t2 "ragd" =
        .error (.thrown "No such breed found!")) :=
  traitAccessors_range cfg0 tRagdoll "ragd" ragdollFields [siberian]
    rfl rfl rfl rfl

/-- Claim C4: under a failing transport, every breed-related operation
rejects with the propagated transport failure, while `randomImage` catches
it and resolves with `undefined` instead. -/
theorem transportFailure_propagation (cfg : Config) (t : Transport)
    (e : AxiosError) (q : String) (limit : Int)
    (h : ∀ r, t r = TResult.fail e) :
    randomImage cfg t = .ok .undefined ∧
    catBreeds cfg t limit = .error (.axios e) ∧
    catBreed cfg t q = .error (.axios e) ∧
    catBreedDescription cfg t q = .error (.axios e) ∧
    catBreedImage cfg t q = .error (.axios e) ∧
    catBreedChildFriendliness cfg t q = .error (.axios e) ∧
    breedLifeSpan cfg t q = .error (.axios e) ∧
    breedTemperament cfg t q = .error (.axios e) ∧
    breedIntelligence cfg t q = .error (.axios e) ∧
    breedAffection cfg t q = .error (.axios e) := by
  refine ⟨?_, ?_, ?_, ?_, ?_, ?_, ?_, ?_, ?_, ?_⟩ <;>
    simp [randomImage, catBreeds, catBreed, catBreedDescription,
      catBreedImage, catBreedChildFriendliness, breedLifeSpan,
      breedTemperament, breedIntelligence, breedAffection, h]

/-- Witness for C4: the always-failing transport `tDown`. -/
theorem transportFailure_propagation_witness :
    randomImage cfg0 tDown = .ok .undefined ∧
    catBreeds cfg0 tDown 30 = .error (.axios { message := "getaddrinfo ENOTFOUND" }) ∧
    catBreed cfg0 tDown "ragd" = .error (.axios { message := "getaddrinfo ENOTFOUND" }) ∧
    catBreedDescription cfg0 tDown "ragd" = .error (.axios { message := "getaddrinfo ENOTFOUND" }) ∧
    catBreedImage cfg0 tDown "ragd" = .error (.axios { message := "getaddrinfo ENOTFOUND" }) ∧
    catBreedChildFriendliness cfg0 tDown "ragd" = .error (.axios { message := "getaddrinfo ENOTFOUND" }) ∧
    breedLifeSpan cfg0 tDown "ragd" = .error (.axios { message := "getaddrinfo ENOTFOUND" }) ∧
    breedTemperament cfg0 tDown "ragd" = .error (.axios { message := "getaddrinfo ENOTFOUND" }) ∧
    breedIntelligence cfg0 tDown "ragd" = .error (.axios { message := "getaddrinfo ENOTFOUND" }) ∧
    breedAffection cfg0 tDown "ragd" = .error (.axios { message := "getaddrinfo ENOTFOUND" }) :=
  transportFailure_propagation cfg0 tDown
    { message := "getaddrinfo ENOTFOUND" } "ragd" 30 (fun _ => rfl)

/-- Claim C5: on a match whose `reference_image_id` is the string `s`,
`catBreedImage` returns exactly the CDN URL, then `s`, then ".jpg". -/
theorem catBreedImage_url (cfg : Config) (t : Transport) (q : String)
    (fields : List (String × JsValue)) (rest : List JsValue) (s : String)
    (h : t (catBreedImageRequest cfg q) =
      TResult.ok (JsValue.obj fields :: rest))
    (hs : fields.lookup "reference_image_id" = some (JsValue.str s)) :
    catBreedImage cfg t q = .ok (.str (cfg.cdnUrl ++ s ++ ".jpg")) := by
  simp [catBreedImage, h, JsValue.truthy, JsValue.getField, hs, jsToString,
    Except.map]

/-- Witness for C5: the Ragdoll record's image id "abc123". -/
theorem catBreedImage_url_witness :
    catBreedImage cfg0 tRagdoll "ragd" =
      .ok (.str ("https://cdn2.thecatapi.com/images/" ++ "abc123" ++ ".jpg")) :=
  catBreedImage_url cfg0 tRagdoll "ragd" ragdollFields [siberian]
    "abc123" rfl rfl

/-- Claim C6: each specialized accessor equals the spec's composition
`search(query) -> firstOrFail() -> project(field)`: it issues the very
request `catBreed` issues, and — since `searchProject` fails exactly when
`firstOrFail` or the transport fails — it fails exactly when `catBreed`
fails, with the same error, and otherwise projects the record `catBreed`
returns.  (`catBreed` itself is the composition at the identity
projection.) -/
theorem accessors_eq_searchProject (cfg : Config) (t : Transport)
    (q : String) :
    catBreedDescriptionRequest cfg q = catBreedRequest cfg q ∧
    catBreedImageRequest cfg q = catBreedRequest cfg q ∧
    catBreedChildFriendlinessRequest cfg q = catBreedRequest cfg q ∧
    breedLifeSpanRequest cfg q = catBreedRequest cfg q ∧
    breedTemperamentRequest cfg q = catBreedRequest cfg q ∧
    breedIntelligenceRequest cfg q = catBreedRequest cfg q ∧
    breedAffectionRequest cfg q = catBreedRequest cfg q ∧
    catBreed cfg t q = searchProject cfg t q (fun v => .ok v) ∧
    catBreedDescription cfg t q =
      searchProject cfg t q (fun v => v.getField "description") ∧
    catBreedImage cfg t q = searchProject cfg t q (fun v =>
      (v.getField "reference_image_id").map
        (fun r => .str (cfg.cdnUrl ++ jsToString r ++ ".jpg"))) ∧
    catBreedChildFriendliness cfg t q =
      searchProject cfg t q (fun v => v.getField "child_friendly") ∧
    breedLifeSpan cfg t q =
      searchProject cfg t q (fun v => v.getField "life_span") ∧
    breedTemperament cfg t q =
      searchProject cfg t q (fun v => v.getField "temperament") ∧
    breedIntelligence cfg t q =
      searchProject cfg t q (fun v => v.getField "intelligence") ∧
    breedAffection cfg t q =
      searchProject cfg t q (fun v => v.getField "affection_level") := by
  refine ⟨rfl, rfl, rfl, rfl, rfl, rfl, rfl, ?_, ?_, ?_, ?_, ?_, ?_, ?_, ?_⟩ <;>
  · show (match t (catBreedRequest cfg q) with
          | TResult.fail e => Except.error (JsError.axios e)
          | TResult.ok data => _) = _
    unfold searchProject
    cases t (catBreedRequest cfg q) with
    | fail e => rfl
    | ok data =>
      unfold firstOrFail
      dsimp only
      by_cases hb : (data.headD JsValue.undefined).truthy = true
      · simp only [if_pos hb]; rfl
      · simp only [if_neg hb]; rfl

/-- Claim C7: `catBreeds` defaults its integer limit to 30, passes the
limit — whatever it is, unvalidated — as the `limit` query parameter of its
single listing request, and returns the server's record sequence
unmodified: same elements, same order. -/
theorem catBreeds_passthrough (cfg : Config) (t : Transport) (limit : Int)
    (data : List JsValue)
    (h : t (catBreedsRequest cfg limit) = TResult.ok data) :
    (catBreedsRequest cfg limit).url =
      cfg.baseUrl ++ "breeds?limit=" ++ toString limit ∧
    catBreedsDefault cfg t = catBreeds cfg t 30 ∧
    catBreeds cfg t limit = .ok data := by
  refine ⟨rfl, rfl, ?_⟩
  simp [catBreeds, h]

/-- Witness for C7: a negative limit is passed through untouched and the
two-record response comes back in order. -/
theorem catBreeds_passthrough_witness :
    (catBreedsRequest cfg0 (-7)).url =
      "https://api.thecatapi.com/v1/" ++ "breeds?limit=" ++ "-7" ∧
    catBreedsDefault cfg0 tRagdoll = catBreeds cfg0 tRagdoll 30 ∧
    catBreeds cfg0 tRagdoll (-7) = .ok [ragdoll, siberian] :=
  catBreeds_passthrough cfg0 tRagdoll (-7) [ragdoll, siberian] rfl

/-- Claim C8: every breed-endpoint request carries the X-API-Key header
with the configured credential, and the random-image request carries no
X-API-Key header at all. -/
theorem apiKey_header_policy (cfg : Config) (q : String) (limit : Int) :
    ("X-API-Key", cfg.apiKey) ∈ (catBreedsRequest cfg limit).headers ∧
    ("X-API-Key", cfg.apiKey) ∈ (catBreedRequest cfg q).headers ∧
    ("X-API-Key", cfg.apiKey) ∈ (catBreedDescriptionRequest cfg q).headers ∧
    ("X-API-Key", cfg.apiKey) ∈ (catBreedImageRequest cfg q).headers ∧
    ("X-API-Key", cfg.apiKey) ∈
      (catBreedChildFriendlinessRequest cfg q).headers ∧
    ("X-API-Key", cfg.apiKey) ∈ (breedLifeSpanRequest cfg q).headers ∧
    ("X-API-Key", cfg.apiKey) ∈ (breedTemperamentRequest cfg q).headers ∧
    ("X-API-Key", cfg.apiKey) ∈ (breedIntelligenceRequest cfg q).headers ∧
    ("X-API-Key", cfg.apiKey) ∈ (breedAffectionRequest cfg q).headers ∧
    (∀ v : String, ("X-API-Key", v) ∉ (randomImageRequest cfg).headers) := by
  refine ⟨?_, ?_, ?_, ?_, ?_, ?_, ?_, ?_, ?_, ?_⟩ <;>
    simp [catBreedsRequest, catBreedRequest, catBreedDescriptionRequest,
      catBreedImageRequest, catBreedChildFriendlinessRequest,
      breedLifeSpanRequest, breedTemperamentRequest,
      breedIntelligenceRequest, breedAffectionRequest, randomImageRequest]

/-- Claim C9: `randomImage` never rejects.  Whatever the transport does, the
promise resolves; under a transport failure, and under a successful response
whose array is empty (so that reading `url` off the missing first element
throws a TypeError), the trailing catch absorbs the error and the promise
resolves with `undefined`. -/
theorem randomImage_never_rejects (cfg : Config) (t : Transport) :
    (∃ v : JsValue, randomImage cfg t = .ok v) ∧
    (∀ e : AxiosError, t (randomImageRequest cfg) = TResult.fail e →
      randomImage cfg t = .ok .undefined) ∧
    (t (randomImageRequest cfg) = TResult.ok [] →
      randomImage cfg t = .ok .undefined) := by
  refine ⟨?_, ?_, ?_⟩
  · unfold randomImage
    cases t (randomImageRequest cfg) with
    | fail e => exact ⟨.undefined, rfl⟩
    | ok data =>
      dsimp only
      cases (data.headD JsValue.undefined).getField "url" with
      | error e => exact ⟨.undefined, rfl⟩
      | ok v => exact ⟨v, rfl⟩
  · intro e he
    simp [randomImage, he]
  · intro he
    simp [randomImage, he, JsValue.getField]

/-- Claim C10: the "no match" test is JavaScript truthiness of the first
element, not emptiness of the sequence: whenever the first element of a
non-empty response is falsy (null, undefined, 0, the empty string, or
false), every breed accessor throws "No such breed found!". -/
theorem falsyFirst_notFound (cfg : Config) (t : Transport) (q : String)
    (v : JsValue) (rest : List JsValue)
    (hv : v.truthy = false)
    (h : t (catBreedRequest cfg q) = TResult.ok (v :: rest)) :
    catBreed cfg t q = .error (.thrown "No such breed found!") ∧
    catBreedDescription cfg t q = .error (.thrown "No such breed found!") ∧
    catBreedImage cfg t q = .error (.thrown "No such breed found!") ∧
    catBreedChildFriendliness cfg t q = .error (.thrown "No such breed found!") ∧
    breedLifeSpan cfg t q = .error (.thrown "No such breed found!") ∧
    breedTemperament cfg t q = .error (.thrown "No such breed found!") ∧
    breedIntelligence cfg t q = .error (.thrown "No such breed found!") ∧
    breedAffection cfg t q = .error (.thrown "No such breed found!") := by
  have hd : t (catBreedDescriptionRequest cfg q) = TResult.ok (v :: rest) := h
  have hi : t (catBreedImageRequest cfg q) = TResult.ok (v :: rest) := h
  have hc : t (catBreedChildFriendlinessRequest cfg q) =
      TResult.ok (v :: rest) := h
  have hl : t (breedLifeSpanRequest cfg q) = TResult.ok (v :: rest) := h
  have ht : t (breedTemperamentRequest cfg q) = TResult.ok (v :: rest) := h
  have hn : t (breedIntelligenceRequest cfg q) = TResult.ok (v :: rest) := h
  have ha : t (breedAffectionRequest cfg q) = TResult.ok (v :: rest) := h
  refine ⟨?_, ?_, ?_, ?_, ?_, ?_, ?_, ?_⟩ <;>
    simp [catBreed, catBreedDescription, catBreedImage,
      catBreedChildFriendliness, breedLifeSpan, breedTemperament,
      breedIntelligence, breedAffection, h, hd, hi, hc, hl, ht, hn, ha, hv]

/-- Witness for C10: a response whose head is the falsy number 0, with a
genuine record right behind it, still reads as "no such breed". -/
theorem falsyFirst_notFound_witness :
    catBreed cfg0 tFalsy "sib" = .error (.thrown "No such breed found!") ∧
    catBreedDescription cfg0 tFalsy "sib" = .error (.thrown "No such breed found!") ∧
    catBreedImage cfg0 tFalsy "sib" = .error (.thrown "No such breed found!") ∧
    catBreedChildFriendliness cfg0 tFalsy "sib" = .error (.thrown "No such breed found!") ∧
    breedLifeSpan cfg0 tFalsy "sib" = .error (.thrown "No such breed found!") ∧
    breedTemperament cfg0 tFalsy "sib" = .error (.thrown "No such breed found!") ∧
    breedIntelligence cfg0 tFalsy "sib" = .error (.thrown "No such breed found!") ∧
    breedAffection cfg0 tFalsy "sib" = .error (.thrown "No such breed found!") :=
  falsyFirst_notFound cfg0 tFalsy "sib" (.num 0) [siberian] rfl rfl
